import Mathlib

/-!
Verification of the uTimerLib deadline-decomposition and re-arm scheduler
(Naguissa/uTimerLib), AVR timebase.

The embedding follows the AVR (`ARDUINO_ARCH_AVR`, non-32U4, Timer2) code in
`src/uTimerLib.cpp` together with `src/hardware/uTimerLib.AVR.cpp`; the
decomposition formulas and the interrupt handler are identical in the two
files.  We fix `F_CPU = 16000000`, so the `if (F_CPU != 16000000)` rescaling
in the source is a no-op and is not modeled.

C integer semantics used throughout:
* `unsigned long int` on AVR is 32 bits: multiplications are taken mod
  `UL32 = 2^32` where they can exceed the range.
* `_remaining` is `unsigned char` (8 bits).
* In `256 - ((X) + 0.5)` the sub-expression `X` (for example
  `(us % 16384) / 64`) is *integer* division, so `X` is a whole number;
  the double value `256 - (X + 0.5) = 255.5 - X` is then converted to
  `unsigned char`, which truncates toward zero.  For `X ≤ 255` the stored
  value is therefore exactly `255 - X`.  Every `255 - X` below is the exact
  value of the corresponding C expression.
-/

namespace UTimerLib

/-- Operation mode `UTIMERLIB_TYPE_OFF` from uTimerLib.h. -/
def UTIMERLIB_TYPE_OFF : Nat := 0

/-- Operation mode `UTIMERLIB_TYPE_TIMEOUT` from uTimerLib.h. -/
def UTIMERLIB_TYPE_TIMEOUT : Nat := 1

/-- Operation mode `UTIMERLIB_TYPE_INTERVAL` from uTimerLib.h. -/
def UTIMERLIB_TYPE_INTERVAL : Nat := 2

/-- Modulus of AVR `unsigned long int` (32 bits). -/
def UL32 : Nat := 4294967296

/-- State of the single uTimerLib instance plus the modeled AVR timer
hardware.  Fields `_type`, `_overflows`, `__overflows`, `_remaining`,
`__remaining`, `_cb` are the members of class `uTimerLib` (uTimerLib.h);
`cbCount` counts invocations of the stored callback (the model of `_cb()`);
`TOIE2` is the Timer2 overflow-interrupt-enable bit of `TIMSK2`; `SREG7`
is the global interrupt-enable bit (bit 7 of `SREG`); `TCNT2` is the timer
counter register; `divisor` is the prescaler divisor selected via `CSMask`
in `TCCR2B`. -/
structure TimerState where
  _type : Nat
  _overflows : Nat
  __overflows : Nat
  _remaining : Nat
  __remaining : Nat
  _cb : Nat
  cbCount : Nat
  TOIE2 : Bool
  SREG7 : Bool
  TCNT2 : Nat
  divisor : Nat
deriving Repr, DecidableEq

/-- State with the member initializers of uTimerLib.h (`_overflows = 0`,
`_remaining = 0`, `_cb = NULL`, `_type = UTIMERLIB_TYPE_OFF`) and all
modeled hardware registers cleared. -/
def defaultState : TimerState :=
  { _type := UTIMERLIB_TYPE_OFF, _overflows := 0, __overflows := 0,
    _remaining := 0, __remaining := 0, _cb := 0, cbCount := 0,
    TOIE2 := false, SREG7 := false, TCNT2 := 0, divisor := 1 }

/-- `uTimerLib::_loadRemaining` (AVR): `TCNT2 = _remaining;`. -/
def _loadRemaining (s : TimerState) : TimerState :=
  { s with TCNT2 := s._remaining }

/-- `uTimerLib::clearTimer` (AVR): `_type = UTIMERLIB_TYPE_OFF;`,
`TIMSK2 &= ~(1 << TOIE2);`, `SREG = (SREG & 0b01111111);`. -/
def clearTimer (s : TimerState) : TimerState :=
  { s with _type := UTIMERLIB_TYPE_OFF, TOIE2 := false, SREG7 := false }

/-- Value assigned to `_overflows` by `uTimerLib::_attachInterrupt_us`
(AVR): `us / 16384` in the `us >= 16384` branch, `0` in the `else` branch
(uTimerLib.cpp lines 130-158, uTimerLib.AVR.cpp lines 124-152). -/
def overflows_us (us : Nat) : Nat :=
  if 16384 ≤ us then us / 16384 else 0

/-- Prescaler divisor selected by `CSMask` in
`uTimerLib::_attachInterrupt_us` (AVR, Timer2 table): the tick lasts
`divisor / 16` microseconds. -/
def divisor_us (us : Nat) : Nat :=
  if 16384 ≤ us then 1024
  else if 4096 ≤ us then 1024
  else if 2048 ≤ us then 256
  else if 1024 ≤ us then 128
  else if 512 ≤ us then 64
  else if 128 ≤ us then 32
  else if 16 ≤ us then 8
  else 1

/-- Value stored in `_remaining` (an `unsigned char`) by
`uTimerLib::_attachInterrupt_us` (AVR).  Each branch
`256 - ((X) + 0.5)` of the source stores exactly `255 - X` (see the header
comment); the two smallest branches are pure integer expressions in the
source. -/
def remaining_us (us : Nat) : Nat :=
  if 16384 ≤ us then 255 - us % 16384 / 64
  else if 4096 ≤ us then 255 - us / 64
  else if 2048 ≤ us then 255 - us / 16
  else if 1024 ≤ us then 255 - us / 8
  else if 512 ≤ us then 255 - us / 4
  else if 128 ≤ us then 255 - us / 2
  else if 16 ≤ us then 256 - us * 2
  else 256 - us * 16

/-- `uTimerLib::_attachInterrupt_us` (uTimerLib.cpp, ARDUINO_ARCH_AVR):
guard `us == 0`, `cli()`, decomposition into `_overflows`/`_remaining`,
copy to `__overflows`/`__remaining`, divisor into `TCCR2B`, then
`if (__overflows == 0) { _loadRemaining(); _remaining = 0; } else
{ TCNT2 = 0; }`, `TIMSK2 |= (1 << TOIE2);`, `sei()`. -/
def _attachInterrupt_us (us : Nat) (s : TimerState) : TimerState :=
  if us = 0 then s
  else
    let s1 := { s with SREG7 := false }
    let s2 := { s1 with _overflows := overflows_us us,
                        _remaining := remaining_us us,
                        __overflows := overflows_us us,
                        __remaining := remaining_us us,
                        divisor := divisor_us us }
    let s3 := if overflows_us us = 0
              then { _loadRemaining s2 with _remaining := 0 }
              else { s2 with TCNT2 := 0 }
    { s3 with TOIE2 := true, SREG7 := true }

/-- `uTimerLib::_attachInterrupt_s` (uTimerLib.cpp, ARDUINO_ARCH_AVR).
The branch on the *stale* `_overflows` value and the decomposition are
taken verbatim; every product is reduced mod `UL32` because the source
computes in 32-bit `unsigned long int`.  The `255 - X` terms embed the
`unsigned char` store of `256 - ((X) + 0.5)` as in `_attachInterrupt_us`;
`floor(s / 16384) * 16384` is `sec / 16384 * 16384` because the integer
quotient is exact in double.  Note the `__overflows == 0` branch calls
`_loadRemaining()` only (it does not zero `_remaining`, unlike the `_us`
variant). -/
def _attachInterrupt_s (sec : Nat) (s : TimerState) : TimerState :=
  if sec = 0 then s
  else
    let s1 := { s with SREG7 := false }
    let o := if 500000 < s._overflows
             then sec / 16384 * 1000000 % UL32
             else sec * 1000000 % UL32 / 16384
    let r := if 16384 < sec
             then 255 - (sec - sec / 16384 * 16384) * 1000000 % UL32 % 16384 / 64
             else 255 - sec * 1000000 % UL32 % 16384 / 64
    let s2 := { s1 with _overflows := o, _remaining := r,
                        __overflows := o, __remaining := r,
                        divisor := 1024 }
    let s3 := if o = 0 then _loadRemaining s2 else { s2 with TCNT2 := 0 }
    { s3 with TOIE2 := true, SREG7 := true }

/-- `uTimerLib::setTimeout_us`: `clearTimer(); _cb = cb;
_type = UTIMERLIB_TYPE_TIMEOUT; _attachInterrupt_us(us);`. -/
def setTimeout_us (cb us : Nat) (s : TimerState) : TimerState :=
  _attachInterrupt_us us
    { clearTimer s with _cb := cb, _type := UTIMERLIB_TYPE_TIMEOUT }

/-- `uTimerLib::setInterval_us`: `clearTimer(); _cb = cb;
_type = UTIMERLIB_TYPE_INTERVAL; _attachInterrupt_us(us);`. -/
def setInterval_us (cb us : Nat) (s : TimerState) : TimerState :=
  _attachInterrupt_us us
    { clearTimer s with _cb := cb, _type := UTIMERLIB_TYPE_INTERVAL }

/-- `uTimerLib::setTimeout_s`: `clearTimer(); _cb = cb;
_type = UTIMERLIB_TYPE_TIMEOUT; _attachInterrupt_s(s);`. -/
def setTimeout_s (cb sec : Nat) (s : TimerState) : TimerState :=
  _attachInterrupt_s sec
    { clearTimer s with _cb := cb, _type := UTIMERLIB_TYPE_TIMEOUT }

/-- `uTimerLib::setInterval_s`: `clearTimer(); _cb = cb;
_type = UTIMERLIB_TYPE_INTERVAL; _attachInterrupt_s(s);`. -/
def setInterval_s (cb sec : Nat) (s : TimerState) : TimerState :=
  _attachInterrupt_s sec
    { clearTimer s with _cb := cb, _type := UTIMERLIB_TYPE_INTERVAL }

/-- `uTimerLib::_interrupt` (AVR), with the call `_cb()` abstracted as an
arbitrary state transformer `cb` applied to the state as it stands when
the callback starts running.  The structure mirrors the source: the
`UTIMERLIB_TYPE_OFF` guard, the conditional decrement of `_overflows`,
the remainder load (`_loadRemaining(); _remaining = 0;`), and the fire
branch which for `Timeout` runs `clearTimer()` and for `Interval`
restores from `__overflows`/`__remaining` before `_cb()` runs. -/
def interruptG (cb : TimerState → TimerState) (s : TimerState) : TimerState :=
  if s._type = UTIMERLIB_TYPE_OFF then s
  else
    let s1 := if 0 < s._overflows
              then { s with _overflows := s._overflows - 1 } else s
    if s1._overflows = 0 ∧ 0 < s1._remaining then
      { _loadRemaining s1 with _remaining := 0 }
    else if s1._overflows = 0 ∧ s1._remaining = 0 then
      if s1._type = UTIMERLIB_TYPE_TIMEOUT then
        cb (clearTimer s1)
      else if s1._type = UTIMERLIB_TYPE_INTERVAL then
        if s1.__overflows = 0 then
          cb { _loadRemaining { s1 with _remaining := s1.__remaining }
                 with _remaining := 0 }
        else
          cb { s1 with _overflows := s1.__overflows,
                       _remaining := s1.__remaining }
      else cb s1
    else s1

/-- Callback model used for counting invocations of `_cb()`. -/
def bumpCb (s : TimerState) : TimerState :=
  { s with cbCount := s.cbCount + 1 }

/-- One delivered elapsed-tick event, with `_cb()` modeled as an
invocation counter. -/
def interrupt (s : TimerState) : TimerState :=
  interruptG bumpCb s

/-- Delivery of `n` successive elapsed-tick events. -/
def run : Nat → TimerState → TimerState
  | 0, s => s
  | n + 1, s => run n (interrupt s)

/-- Number of delivered events until the fire branch of `_interrupt`
runs, for a non-Off state: `max _overflows 1` events count down the
overflow phase (a single event fires directly when `_overflows ≤ 1` and
`_remaining = 0`), plus one more event when a nonzero remainder must
first be loaded. -/
def fireTime (s : TimerState) : Nat :=
  max s._overflows 1 + (if 0 < s._remaining then 1 else 0)

/-- State installed by the `Interval` fire branch of `_interrupt` before
`_cb()` is invoked: restore from the saved copies, loading the remainder
into the counter at once when the saved overflow count is zero. -/
def rearm (s : TimerState) : TimerState :=
  if s.__overflows = 0 then
    { s with _overflows := 0, _remaining := 0, TCNT2 := s.__remaining }
  else
    { s with _overflows := s.__overflows, _remaining := s.__remaining }

/-- Round-half-up of the fraction `num / den`, the rounding mode the
specification prescribes for the decomposition. -/
def roundHalfUp (num den : Nat) : Nat :=
  (2 * num + den) / (2 * den)

/-- Remainder as the words of claim C1 describe it: 256 minus the
round-half-up of `(us mod 16384) / 64`.  Kept separate from
`remaining_us`, which is translated from the source, so the two can be
compared. -/
def spec_remainder_us (us : Nat) : Nat :=
  256 - roundHalfUp (us % 16384) 64

/-! Step lemmas: the four behaviors of one delivered event, read off the
branches of `_interrupt`. -/

/-- A delivered event in mode Off returns without touching anything,
whatever the callback is. -/
theorem interruptG_off (cb : TimerState → TimerState) (s : TimerState)
    (h : s._type = UTIMERLIB_TYPE_OFF) : interruptG cb s = s := by
  simp [interruptG, h]

/-- A delivered event with at least two pending overflows only decrements
`_overflows`. -/
theorem interrupt_dec (s : TimerState)
    (ht : s._type ≠ UTIMERLIB_TYPE_OFF) (h2 : 2 ≤ s._overflows) :
    interrupt s = { s with _overflows := s._overflows - 1 } := by
  have ha : 0 < s._overflows := by omega
  have hb : ¬ s._overflows - 1 = 0 := by omega
  simp [interrupt, interruptG, ht, ha, hb]

/-- A delivered event that brings `_overflows` to zero while a remainder
is pending loads the remainder into the counter and clears it; the
callback does not run. -/
theorem interrupt_load (s : TimerState)
    (ht : s._type ≠ UTIMERLIB_TYPE_OFF) (h1 : s._overflows ≤ 1)
    (hr : 0 < s._remaining) :
    interrupt s
      = { s with _overflows := 0, _remaining := 0, TCNT2 := s._remaining } := by
  rcases Nat.le_one_iff_eq_zero_or_eq_one.mp h1 with h | h
  · cases s
    simp_all [interrupt, interruptG, _loadRemaining]
  · cases s
    simp_all [interrupt, interruptG, _loadRemaining]

/-- Timeout fire: when the overflow count and remainder have run out, the
handler runs `clearTimer()` first and only then hands the (already Off,
interrupt-masked) state to the callback. -/
theorem interruptG_fire_timeout (cb : TimerState → TimerState)
    (s : TimerState) (ht : s._type = UTIMERLIB_TYPE_TIMEOUT)
    (h1 : s._overflows ≤ 1) (hr : s._remaining = 0) :
    interruptG cb s = cb (clearTimer { s with _overflows := 0 }) := by
  rcases Nat.le_one_iff_eq_zero_or_eq_one.mp h1 with h | h
  · cases s
    simp_all [interruptG, clearTimer, UTIMERLIB_TYPE_TIMEOUT, UTIMERLIB_TYPE_OFF]
  · cases s
    simp_all [interruptG, clearTimer, UTIMERLIB_TYPE_TIMEOUT, UTIMERLIB_TYPE_OFF]

/-- Interval fire: the handler restores the live decomposition from the
saved copies (re-arming the counter directly when the saved overflow
count is zero) and only then hands the re-armed state to the callback. -/
theorem interruptG_fire_interval (cb : TimerState → TimerState)
    (s : TimerState) (ht : s._type = UTIMERLIB_TYPE_INTERVAL)
    (h1 : s._overflows ≤ 1) (hr : s._remaining = 0) :
    interruptG cb s = cb (rearm s) := by
  obtain ⟨t, o, so, r, sr, cbv, cc, ti, sg, tc, dv⟩ := s
  rcases Nat.le_one_iff_eq_zero_or_eq_one.mp h1 with h | h <;>
    by_cases hso : so = 0 <;>
      simp_all [interruptG, rearm, _loadRemaining,
        UTIMERLIB_TYPE_INTERVAL, UTIMERLIB_TYPE_TIMEOUT, UTIMERLIB_TYPE_OFF]

/-- The handler itself never writes the saved copies `__overflows` and
`__remaining` (the callback is modeled as the invocation counter). -/
theorem interrupt_saved_const (s : TimerState) :
    (interrupt s).__overflows = s.__overflows
      ∧ (interrupt s).__remaining = s.__remaining := by
  cases s
  simp only [interrupt, interruptG, bumpCb, clearTimer, _loadRemaining]
  split_ifs <;> simp

/-! Trace lemmas: what a sequence of delivered events does. -/

/-- Splitting a trace of events. -/
theorem run_add (a b : Nat) (s : TimerState) :
    run (a + b) s = run b (run a s) := by
  induction a generalizing s with
  | zero => rw [Nat.zero_add]; rfl
  | succ a ih =>
      rw [show a + 1 + b = (a + b) + 1 from by omega]
      show run (a + b) (interrupt s) = run b (run a (interrupt s))
      exact ih (interrupt s)

/-- Events delivered in mode Off change nothing, however many. -/
theorem run_off (n : Nat) (s : TimerState)
    (h : s._type = UTIMERLIB_TYPE_OFF) : run n s = s := by
  induction n with
  | zero => rfl
  | succ n ih =>
      show run n (interrupt s) = s
      rw [show interrupt s = s from interruptG_off bumpCb s h, ih]

/-- Overflow countdown phase: as long as events leave at least one
pending overflow, each event only decrements `_overflows`. -/
theorem run_dec (j : Nat) (s : TimerState)
    (ht : s._type ≠ UTIMERLIB_TYPE_OFF) (hj : j + 1 ≤ s._overflows) :
    run j s = { s with _overflows := s._overflows - j } := by
  induction j generalizing s with
  | zero => rfl
  | succ j ih =>
      show run j (interrupt s) = _
      rw [interrupt_dec s ht (by omega)]
      rw [ih { s with _overflows := s._overflows - 1 } ht (by simp; omega)]
      simp
      rw [show s._overflows - 1 - j = s._overflows - (j + 1) from by omega]

/-- Countdown through the overflow phase followed by the remainder load:
after `max _overflows 1` events the remainder has been moved into the
hardware counter and zeroed, with no callback invocation. -/
theorem run_to_load (s : TimerState)
    (ht : s._type ≠ UTIMERLIB_TYPE_OFF) (hr : 0 < s._remaining) :
    run (max s._overflows 1) s
      = { s with _overflows := 0, _remaining := 0, TCNT2 := s._remaining } := by
  by_cases h1 : s._overflows ≤ 1
  · rw [show max s._overflows 1 = 1 from by omega]
    show interrupt s = _
    exact interrupt_load s ht h1 hr
  · rw [show max s._overflows 1 = (s._overflows - 1) + 1 from by omega,
      run_add]
    rw [run_dec (s._overflows - 1) s ht (by omega)]
    rw [show s._overflows - (s._overflows - 1) = 1 from by omega]
    show interrupt _ = _
    rw [interrupt_load { s with _overflows := 1 } ht (by simp) hr]

/-- Full timeout trace: starting from any Timeout state, after
`fireTime` events the schedule has fired once — the state is the one
`clearTimer()` leaves (mode Off, overflow interrupt masked, global
interrupts disabled) with the callback counted exactly once. -/
theorem run_fire_timeout (s : TimerState)
    (h1 : s._type = UTIMERLIB_TYPE_TIMEOUT) :
    run (fireTime s) s
      = bumpCb (clearTimer
          { s with _overflows := 0, _remaining := 0,
                   TCNT2 := if 0 < s._remaining then s._remaining
                            else s.TCNT2 }) := by
  have ht : s._type ≠ UTIMERLIB_TYPE_OFF := by rw [h1]; decide
  by_cases hr : 0 < s._remaining
  · have hft : fireTime s = max s._overflows 1 + 1 := by
      simp [fireTime, hr]
    rw [hft, run_add, run_to_load s ht hr]
    show interruptG bumpCb _ = _
    rw [interruptG_fire_timeout bumpCb
      { s with _overflows := 0, _remaining := 0, TCNT2 := s._remaining }
      h1 (by simp) (by simp)]
    simp [hr]
  · have hrem : s._remaining = 0 := by omega
    have hft : fireTime s = max s._overflows 1 := by
      simp [fireTime, hr]
    by_cases h2 : s._overflows ≤ 1
    · rw [hft, show max s._overflows 1 = 1 from by omega]
      show interruptG bumpCb s = _
      rw [interruptG_fire_timeout bumpCb s h1 h2 hrem]
      obtain ⟨t, o, so, r, sr, cbv, cc, ti, sg, tc, dv⟩ := s
      simp_all [bumpCb, clearTimer]
    · rw [hft, show max s._overflows 1 = (s._overflows - 1) + 1 from by omega,
        run_add, run_dec (s._overflows - 1) s ht (by omega),
        show s._overflows - (s._overflows - 1) = 1 from by omega]
      show interruptG bumpCb _ = _
      rw [interruptG_fire_timeout bumpCb { s with _overflows := 1 }
        h1 (by simp) hrem]
      obtain ⟨t, o, so, r, sr, cbv, cc, ti, sg, tc, dv⟩ := s
      simp_all [bumpCb, clearTimer]

/-- Fixed points of `rearm` under a `cbCount` change: the handler's
interval re-arm does not read or write the invocation counter. -/
theorem rearm_cbCount (s : TimerState) (c : Nat) :
    rearm { s with cbCount := c } = { rearm s with cbCount := c } := by
  by_cases h : s.__overflows = 0 <;> simp [rearm, h]

/-- Interval cycle: from a re-armed interval state (a fixed point of
`rearm` whose counter already holds the loaded remainder), `fireTime`
events later the state is bit-identical except that the callback has
been invoked exactly once more. -/
theorem run_cycle (s : TimerState)
    (h2 : s._type = UTIMERLIB_TYPE_INTERVAL) (hre : rearm s = s)
    (htc : 0 < s._remaining → s.TCNT2 = s._remaining) :
    run (fireTime s) s = { s with cbCount := s.cbCount + 1 } := by
  have ht : s._type ≠ UTIMERLIB_TYPE_OFF := by rw [h2]; decide
  by_cases hr : 0 < s._remaining
  · have htc' := htc hr
    have hft : fireTime s = max s._overflows 1 + 1 := by
      simp [fireTime, hr]
    rw [hft, run_add, run_to_load s ht hr]
    show interruptG bumpCb _ = _
    rw [interruptG_fire_interval bumpCb
      { s with _overflows := 0, _remaining := 0, TCNT2 := s._remaining }
      h2 (by simp) (by simp)]
    obtain ⟨t, o, so, r, sr, cbv, cc, ti, sg, tc, dv⟩ := s
    by_cases hso : so = 0 <;> simp_all [rearm, bumpCb]
  · have hrem : s._remaining = 0 := by omega
    have hft : fireTime s = max s._overflows 1 := by
      simp [fireTime, hr]
    by_cases ho : s._overflows ≤ 1
    · rw [hft, show max s._overflows 1 = 1 from by omega]
      show interruptG bumpCb s = _
      rw [interruptG_fire_interval bumpCb s h2 ho hrem, hre]
      rfl
    · rw [hft, show max s._overflows 1 = (s._overflows - 1) + 1 from by omega,
        run_add, run_dec (s._overflows - 1) s ht (by omega),
        show s._overflows - (s._overflows - 1) = 1 from by omega]
      show interruptG bumpCb _ = _
      rw [interruptG_fire_interval bumpCb { s with _overflows := 1 }
        h2 (by simp) hrem]
      rw [show rearm { s with _overflows := 1 } = rearm s from by
        by_cases hso : s.__overflows = 0 <;> simp [rearm, hso]]
      rw [hre]
      rfl

/-- Interval periodicity: a re-armed interval state replays the same
cycle for arbitrarily many periods; after `j` full periods the state is
unchanged except for `j` counted callback invocations. -/
theorem run_periodic (j : Nat) (s : TimerState)
    (h2 : s._type = UTIMERLIB_TYPE_INTERVAL) (hre : rearm s = s)
    (htc : 0 < s._remaining → s.TCNT2 = s._remaining) :
    run (j * fireTime s) s = { s with cbCount := s.cbCount + j } := by
  induction j generalizing s with
  | zero => rw [Nat.zero_mul]; rfl
  | succ j ih =>
      rw [show (j + 1) * fireTime s = fireTime s + j * fireTime s from by
        rw [Nat.succ_mul, Nat.add_comm]]
      rw [run_add, run_cycle s h2 hre htc]
      have hre' : rearm { s with cbCount := s.cbCount + 1 }
          = { s with cbCount := s.cbCount + 1 } := by
        rw [rearm_cbCount, hre]
      rw [show run (j * fireTime s) { s with cbCount := s.cbCount + 1 }
          = { s with cbCount := s.cbCount + 1 + j } from
        ih { s with cbCount := s.cbCount + 1 } h2 hre' htc]
      rw [show s.cbCount + 1 + j = s.cbCount + (j + 1) from by omega]

/-- Concrete armed Timeout state (overflow count 3, remainder 200) used
to instantiate the Timeout trace theorem. -/
def sTimeoutC : TimerState :=
  { _type := UTIMERLIB_TYPE_TIMEOUT, _overflows := 3, __overflows := 3,
    _remaining := 200, __remaining := 200, _cb := 7, cbCount := 0,
    TOIE2 := true, SREG7 := true, TCNT2 := 0, divisor := 1024 }

/-- Concrete re-armed Interval state (saved decomposition 2 overflows,
remainder 100, counter holding the loaded remainder) used to instantiate
the Interval periodicity theorem. -/
def sIntervalC : TimerState :=
  { _type := UTIMERLIB_TYPE_INTERVAL, _overflows := 2, __overflows := 2,
    _remaining := 100, __remaining := 100, _cb := 7, cbCount := 0,
    TOIE2 := true, SREG7 := true, TCNT2 := 100, divisor := 1024 }

/-! Claim theorems. -/

/-- Claim C1: for `us ≥ 16384` the claim states the remainder equals
`256 −` round-half-up of `(us mod 16384) / 64`, making the replayed delay
the requested delay rounded to the nearest tick.  The code disagrees: at
`us = 16384` it stores `_remaining = 255` (the `+ 0.5` in the source is
inert, because `(us % 16384) / 64` is already integer division and the
`unsigned char` store truncates `255.5 − X` to `255 − X`), while the
claimed formula yields `256` (`0` as an 8-bit store, skipping the partial
period); replaying the code's decomposition takes 16448 µs for the
requested 16384 µs instead of the nearest-tick 16384 µs. -/
theorem C1_remainder_rounding_bug :
    remaining_us 16384 = 255
      ∧ spec_remainder_us 16384 = 256
      ∧ remaining_us 16384 ≠ spec_remainder_us 16384 % 256
      ∧ overflows_us 16384 = 1
      ∧ overflows_us 16384 * 16384 + (256 - remaining_us 16384) * 64
          = 16448 := by
  decide

/-- Claim C7: for a delay that is an exact multiple of the 16384 µs
period the claim states the computed remainder is 0 and the remainder
phase is skipped.  Evaluating the code at `us = 32768`: the stored
remainder is 255, it survives arming (the nonzero-overflow path does not
clear it), so a spurious 1-tick (64 µs) partial period runs and the
replayed delay is 32832 µs, not 32768 µs. -/
theorem C7_exact_multiple_not_skipped :
    32768 % 16384 = 0
      ∧ remaining_us 32768 = 255
      ∧ remaining_us 32768 ≠ 0
      ∧ (setTimeout_us 7 32768 defaultState)._remaining = 255
      ∧ overflows_us 32768 * 16384 + (256 - remaining_us 32768) * 64
          = 32832 := by
  decide

/-- Claim C8: for `us < 16384` the claim states `overflows = 0`, the
remainder alone equals the rounded tick value of the delay, and the
remainder is loaded into the counter immediately.  At `us = 4096` the
first and third parts hold (overflow count 0; `TCNT2` is loaded with the
remainder and `_remaining` cleared at arming), but the armed partial
period is 65 ticks where the rounded tick value `round(4096·16/1024)` is
64: the code's truncated division plus the inert `+ 0.5` always arms
`floor + 1` ticks in the dividing branches. -/
theorem C8_zero_overflow_remainder_not_rounded :
    overflows_us 4096 = 0
      ∧ remaining_us 4096 = 191
      ∧ 256 - remaining_us 4096 = 65
      ∧ roundHalfUp (4096 * 16) (divisor_us 4096) = 64
      ∧ 256 - remaining_us 4096 ≠ roundHalfUp (4096 * 16) (divisor_us 4096)
      ∧ (setTimeout_us 7 4096 defaultState).TCNT2 = 191
      ∧ (setTimeout_us 7 4096 defaultState)._remaining = 0 := by
  decide

/-- Claim C5 counterexample: calling `setTimeout_us(cb, 0)` from the
pristine state is not a no-op — the mode is left as Timeout and the
callback is installed, refuting the claim that the call has no effect on
the scheduler's observable state. -/
theorem C5_zero_duration_counterexample :
    (setTimeout_us 7 0 defaultState)._type = UTIMERLIB_TYPE_TIMEOUT
      ∧ (setTimeout_us 7 0 defaultState)._cb = 7
      ∧ setTimeout_us 7 0 defaultState ≠ defaultState := by
  decide

/-- Claim C5 (amended): a zero duration skips only the arming step — the
decomposition fields and the counter keep their previous values and the
overflow interrupt stays masked (so the schedule never fires) — but the
call still clears any prior schedule, stores the callback, sets the mode
to Timeout or Interval, and returns with global interrupts disabled. -/
theorem C5_zero_duration_amended (cb : Nat) (s : TimerState) :
    setTimeout_us cb 0 s
        = { s with _type := UTIMERLIB_TYPE_TIMEOUT, _cb := cb,
                   TOIE2 := false, SREG7 := false }
      ∧ setInterval_us cb 0 s
        = { s with _type := UTIMERLIB_TYPE_INTERVAL, _cb := cb,
                   TOIE2 := false, SREG7 := false }
      ∧ setTimeout_s cb 0 s
        = { s with _type := UTIMERLIB_TYPE_TIMEOUT, _cb := cb,
                   TOIE2 := false, SREG7 := false }
      ∧ setInterval_s cb 0 s
        = { s with _type := UTIMERLIB_TYPE_INTERVAL, _cb := cb,
                   TOIE2 := false, SREG7 := false } :=
  ⟨rfl, rfl, rfl, rfl⟩

/-- Claim C6: whenever the mode is Off — initially, after a timeout has
fired, or after any `clearTimer()` — every delivered elapsed-tick event
is a silent no-op for any callback, and `clearTimer` always leaves the
mode Off. -/
theorem C6_off_events_are_noops (cb : TimerState → TimerState)
    (s t : TimerState) (n : Nat) (h : s._type = UTIMERLIB_TYPE_OFF) :
    interruptG cb s = s
      ∧ run n s = s
      ∧ (clearTimer t)._type = UTIMERLIB_TYPE_OFF
      ∧ run n (clearTimer t) = clearTimer t :=
  ⟨interruptG_off cb s h, run_off n s h, rfl,
    run_off n (clearTimer t) rfl⟩

/-- Claim C6 witness: the Off guarantees instantiated on the pristine
state and on a cleared armed state. -/
theorem C6_witness :
    defaultState._type = UTIMERLIB_TYPE_OFF
      ∧ interruptG bumpCb defaultState = defaultState
      ∧ run 5 defaultState = defaultState
      ∧ run 5 (clearTimer sTimeoutC) = clearTimer sTimeoutC :=
  ⟨rfl, (C6_off_events_are_noops bumpCb defaultState sTimeoutC 5 rfl).1,
    (C6_off_events_are_noops bumpCb defaultState sTimeoutC 5 rfl).2.1,
    (C6_off_events_are_noops bumpCb defaultState sTimeoutC 5 rfl).2.2.2⟩

/-- Claim C10: `clearTimer` on AVR clears the global interrupt-enable
bit (SREG bit 7) along with the timer's own overflow mask and never
restores it; since the public scheduling calls run `clearTimer()` first
and only the nonzero-duration arming path executes `sei()`, a scheduling
call with duration 0 returns with all interrupts globally disabled,
while a nonzero duration returns with them re-enabled. -/
theorem C10_clearTimer_kills_global_interrupts (s : TimerState)
    (cb us : Nat) :
    (clearTimer s).SREG7 = false
      ∧ (clearTimer s).TOIE2 = false
      ∧ (clearTimer s)._type = UTIMERLIB_TYPE_OFF
      ∧ (setTimeout_us cb 0 s).SREG7 = false
      ∧ (setInterval_us cb 0 s).SREG7 = false
      ∧ (setTimeout_s cb 0 s).SREG7 = false
      ∧ (setInterval_s cb 0 s).SREG7 = false
      ∧ (us ≠ 0 → (setTimeout_us cb us s).SREG7 = true) := by
  refine ⟨rfl, rfl, rfl, rfl, rfl, rfl, rfl, fun h => ?_⟩
  simp [setTimeout_us, _attachInterrupt_us, h]

/-- Claim C10 witness: the guarantees at duration 5 µs from the pristine
state. -/
theorem C10_witness :
    (5 : Nat) ≠ 0 ∧ (setTimeout_us 7 5 defaultState).SREG7 = true
      ∧ (setTimeout_us 7 0 defaultState).SREG7 = false :=
  ⟨by decide,
    (C10_clearTimer_kills_global_interrupts defaultState 7 5).2.2.2.2.2.2.2
      (by decide),
    (C10_clearTimer_kills_global_interrupts defaultState 7 5).2.2.2.1⟩

/-- Claim C9: the armed decomposition of the seconds path is not a
function of the requested duration and timebase alone — there are a
duration and two states differing only in the residual `_overflows` of a
previous schedule from which `setTimeout_s` arms different overflow
counts, because `_attachInterrupt_s` selects between
`s / 16384 * 1000000` and `s * 1000000 / 16384` by testing the stale
`_overflows` value. -/
theorem C9_stale_overflows_dependence :
    ∃ (sec : Nat) (sA sB : TimerState),
      sA = { sB with _overflows := sA._overflows }
        ∧ sA._overflows ≠ sB._overflows
        ∧ (setTimeout_s 7 sec sA)._overflows
            ≠ (setTimeout_s 7 sec sB)._overflows := by
  refine ⟨100, { defaultState with _overflows := 600001 }, defaultState,
    by decide, by decide, by decide⟩

/-- Claim C2: for every Timeout schedule, on the event at which both the
overflow count and the remainder have run out the handler sets the mode
to Off and masks event delivery strictly before invoking the callback
(the callback receives the already-cleared state); afterwards the mode
is Off, the callback has been invoked exactly once for the schedule, no
earlier event invoked it, and every further event is a no-op. -/
theorem C2_timeout_fires_once_then_off (cb : TimerState → TimerState)
    (s : TimerState) (h1 : s._type = UTIMERLIB_TYPE_TIMEOUT) :
    ((run (fireTime s) s)._type = UTIMERLIB_TYPE_OFF
        ∧ (run (fireTime s) s).TOIE2 = false
        ∧ (run (fireTime s) s).cbCount = s.cbCount + 1)
      ∧ (∀ j, j < fireTime s →
          (run j s).cbCount = s.cbCount
            ∧ (run j s)._type = UTIMERLIB_TYPE_TIMEOUT)
      ∧ (∀ m, run m (run (fireTime s) s) = run (fireTime s) s)
      ∧ (∀ t, t._type = UTIMERLIB_TYPE_TIMEOUT → t._overflows ≤ 1 →
          t._remaining = 0 →
          interruptG cb t = cb (clearTimer { t with _overflows := 0 })
            ∧ (clearTimer { t with _overflows := 0 })._type
                = UTIMERLIB_TYPE_OFF
            ∧ (clearTimer { t with _overflows := 0 }).TOIE2 = false
            ∧ (clearTimer { t with _overflows := 0 }).SREG7 = false) := by
  have ht : s._type ≠ UTIMERLIB_TYPE_OFF := by rw [h1]; decide
  have hfire := run_fire_timeout s h1
  refine ⟨?_, ?_, ?_, ?_⟩
  · rw [hfire]
    exact ⟨rfl, rfl, rfl⟩
  · intro j hj
    by_cases hr : 0 < s._remaining
    · have hft : fireTime s = max s._overflows 1 + 1 := by
        simp [fireTime, hr]
      rw [hft] at hj
      by_cases hjm : j < max s._overflows 1
      · by_cases hj0 : j = 0
        · subst hj0
          exact ⟨rfl, h1⟩
        · have hmax : j + 1 ≤ s._overflows := by
            by_cases ho : s._overflows ≤ 1
            · rw [show max s._overflows 1 = 1 from by omega] at hjm
              omega
            · rw [show max s._overflows 1 = s._overflows from by omega]
                at hjm
              omega
          rw [run_dec j s ht hmax]
          exact ⟨rfl, h1⟩
      · have hje : j = max s._overflows 1 := by omega
        rw [hje, run_to_load s ht hr]
        exact ⟨rfl, h1⟩
    · have hft : fireTime s = max s._overflows 1 := by
        simp [fireTime, hr]
      rw [hft] at hj
      by_cases hj0 : j = 0
      · subst hj0
        exact ⟨rfl, h1⟩
      · have hmax : j + 1 ≤ s._overflows := by
          by_cases ho : s._overflows ≤ 1
          · rw [show max s._overflows 1 = 1 from by omega] at hj
            omega
          · rw [show max s._overflows 1 = s._overflows from by omega] at hj
            omega
        rw [run_dec j s ht hmax]
        exact ⟨rfl, h1⟩
  · intro m
    rw [hfire]
    exact run_off m _ rfl
  · intro t h1t hot hrt
    exact ⟨interruptG_fire_timeout cb t h1t hot hrt, rfl, rfl, rfl⟩

/-- Claim C2 witness: the Timeout guarantees instantiated on a concrete
armed schedule (3 overflows, remainder 200, so the callback fires on the
fourth event). -/
theorem C2_witness :
    sTimeoutC._type = UTIMERLIB_TYPE_TIMEOUT
      ∧ (run (fireTime sTimeoutC) sTimeoutC)._type = UTIMERLIB_TYPE_OFF
      ∧ (run (fireTime sTimeoutC) sTimeoutC).cbCount
          = sTimeoutC.cbCount + 1
      ∧ run 6 (run (fireTime sTimeoutC) sTimeoutC)
          = run (fireTime sTimeoutC) sTimeoutC :=
  ⟨rfl, (C2_timeout_fires_once_then_off bumpCb sTimeoutC rfl).1.1,
    (C2_timeout_fires_once_then_off bumpCb sTimeoutC rfl).1.2.2,
    (C2_timeout_fires_once_then_off bumpCb sTimeoutC rfl).2.2.1 6⟩

/-- Claim C3: the handler never writes the saved copies `__overflows`
and `__remaining`; on every Interval fire it restores the live
decomposition from them and re-arms strictly before invoking the
callback (the callback receives the re-armed state, whose saved copies
are untouched); consequently a re-armed interval state replays a
bit-identical cycle for arbitrarily many periods, accumulating exactly
one callback invocation per period. -/
theorem C3_interval_rearm_periodicity (cb : TimerState → TimerState)
    (s : TimerState) (h2 : s._type = UTIMERLIB_TYPE_INTERVAL)
    (hre : rearm s = s)
    (htc : 0 < s._remaining → s.TCNT2 = s._remaining) :
    (∀ t, (interrupt t).__overflows = t.__overflows
        ∧ (interrupt t).__remaining = t.__remaining)
      ∧ (∀ t, t._type = UTIMERLIB_TYPE_INTERVAL → t._overflows ≤ 1 →
          t._remaining = 0 →
          interruptG cb t = cb (rearm t)
            ∧ (rearm t).__overflows = t.__overflows
            ∧ (rearm t).__remaining = t.__remaining
            ∧ (rearm t)._type = t._type)
      ∧ (∀ j, run (j * fireTime s) s
          = { s with cbCount := s.cbCount + j }) := by
  refine ⟨interrupt_saved_const, ?_,
    fun j => run_periodic j s h2 hre htc⟩
  intro t h2t hot hrt
  refine ⟨interruptG_fire_interval cb t h2t hot hrt, ?_, ?_, ?_⟩ <;>
    by_cases h : t.__overflows = 0 <;> simp [rearm, h]

/-- Claim C3 witness: 3 periods of a concrete re-armed interval schedule
(saved decomposition 2 overflows, remainder 100; each period takes 3
events) return the state bit-identical up to 3 counted invocations. -/
theorem C3_witness :
    sIntervalC._type = UTIMERLIB_TYPE_INTERVAL
      ∧ rearm sIntervalC = sIntervalC
      ∧ run (3 * fireTime sIntervalC) sIntervalC
          = { sIntervalC with cbCount := sIntervalC.cbCount + 3 } :=
  ⟨rfl, by decide,
    (C3_interval_rearm_periodicity bumpCb sIntervalC rfl (by decide)
      (by decide)).2.2 3⟩

/-- Claim C4 (amended): the seconds-to-ticks conversion multiplies the
requested seconds by 1000000 in 32-bit `unsigned long` arithmetic, so
for every duration of at least 4295 s the product wraps mod 2^32 and the
armed overflow count is strictly smaller than the unwrapped value
`s·10^6 / 16384` — the delay is silently shortened; the code neither
saturates nor rejects. -/
theorem C4_seconds_conversion_wraps (sec : Nat) (s : TimerState)
    (hstale : s._overflows ≤ 500000) (hbig : 4295 ≤ sec) :
    UL32 ≤ sec * 1000000
      ∧ (_attachInterrupt_s sec s)._overflows
          = sec * 1000000 % UL32 / 16384
      ∧ (_attachInterrupt_s sec s)._overflows
          < sec * 1000000 / 16384 := by
  have hw : UL32 ≤ sec * 1000000 := by
    calc UL32 ≤ 4295 * 1000000 := by decide
    _ ≤ sec * 1000000 := Nat.mul_le_mul_right 1000000 hbig
  have hne : ¬ sec = 0 := by omega
  have hlt : ¬ 500000 < s._overflows := by omega
  have hov : (_attachInterrupt_s sec s)._overflows
      = sec * 1000000 % UL32 / 16384 := by
    simp [_attachInterrupt_s, hne, hlt, _loadRemaining,
      apply_ite (TimerState._overflows)]
  refine ⟨hw, hov, ?_⟩
  rw [hov]
  have h16 : (16384 : Nat) ∣ UL32 := by decide
  unfold UL32 at hw ⊢
  omega

/-- Claim C4 witness: at 5000 requested seconds the armed overflow count
is below the unwrapped seconds-to-periods value. -/
theorem C4_witness :
    defaultState._overflows ≤ 500000
      ∧ (4295 : Nat) ≤ 5000
      ∧ (_attachInterrupt_s 5000 defaultState)._overflows
          < 5000 * 1000000 / 16384 :=
  ⟨by decide, by decide,
    (C4_seconds_conversion_wraps 5000 defaultState (by decide)
      (by decide)).2.2⟩

/-- Claim C4 counterexample: the claim says large seconds requests are
saturated or rejected rather than silently wrapped; yet
`setTimeout_s(cb, 5000)` from the pristine state installs a Timeout
schedule armed with 43031 overflow periods — far below the unwrapped
305175 periods that 5000 s require — a silently wrapped short delay. -/
theorem C4_counterexample :
    (setTimeout_s 7 5000 defaultState)._overflows = 43031
      ∧ 5000 * 1000000 / 16384 = 305175
      ∧ (43031 : Nat) < 305175
      ∧ (setTimeout_s 7 5000 defaultState)._type
          = UTIMERLIB_TYPE_TIMEOUT := by
  decide

-- Sanity checks of the embedding on concrete values.
example : overflows_us 1000000 = 61 := by decide
example : remaining_us 16384 = 255 := by decide
example : remaining_us 20000 = 199 := by decide
example : remaining_us 100 = 56 := by decide
example : remaining_us 4096 = 191 := by decide
example : (setTimeout_us 7 0 defaultState)._type = UTIMERLIB_TYPE_TIMEOUT := by decide
example : (setTimeout_s 7 5000 defaultState)._overflows = 43031 := by decide
example : (interrupt { defaultState with _type := 1 }).cbCount = 1 := by decide

end UTimerLib
